import Mathlib

/-!
Verification of the list-query construction protocol (search filtering,
dynamic sort-by, pagination) of the CRUD module `src/api/data/crud.py`
and of the pool-based invoice router `src/api/app/routers/invoices.py`
of the PostgreSQL solution-accelerator API.

Text is embedded as `List Char` (Python `str` / SQL `text`), database
tables as Lean lists of records, and each Python function as a Lean
function over those lists.  Fallible operations (the uncaught
`AttributeError` of the dynamic sort-column lookup, the router's 404)
return `Except`.
-/

namespace CopilotApi

/-- Equality of fallible results is decidable (used only to evaluate the
embedded operations on concrete inputs). -/
instance {ε α : Type} [DecidableEq ε] [DecidableEq α] : DecidableEq (Except ε α) := fun a b =>
  match a, b with
  | .error e, .error f =>
    if h : e = f then .isTrue (by rw [h]) else .isFalse (fun hh => h (by cases hh; rfl))
  | .error _, .ok _ => .isFalse (fun hh => Except.noConfusion hh)
  | .ok _, .error _ => .isFalse (fun hh => Except.noConfusion hh)
  | .ok a, .ok b =>
    if h : a = b then .isTrue (by rw [h]) else .isFalse (fun hh => h (by cases hh; rfl))

/-- Python / SQL text: a string is its list of characters. -/
abbrev Str := List Char

/-- Case normalisation used by SQL `ILIKE`: lower-case both sides. -/
def lowerStr (s : Str) : Str := s.map Char.toLower

/-- SQL `LIKE` pattern matching over characters already case-normalised:
`%` matches any (possibly empty) substring (that is, some suffix of the
text matches the rest of the pattern), `_` matches any single character,
every other pattern character matches itself. -/
def likeMatch (p : Str) : Str → Bool :=
  match p with
  | [] => fun s => s.isEmpty
  | c :: ps => fun s =>
    if c = '%' then (s.tails).any (likeMatch ps)
    else
      match s with
      | [] => false
      | d :: s2 => if c = '_' then likeMatch ps s2 else (c == d) && likeMatch ps s2

/-- SQL `ILIKE`: case-insensitive `LIKE` (both the text and the pattern
are case-normalised before matching). -/
def ilike (text pat : Str) : Bool := likeMatch (lowerStr pat) (lowerStr text)

/-- The query builder's `search = f"%{search}%"`: wrap the user term in
wildcard markers on both sides. -/
def wrapWildcards (term : Str) : Str := '%' :: (term ++ ['%'])

/-- Python truthiness of an optional string (`if search:` / `if sortby:`):
`None` and the empty string are falsy. -/
def truthy : Option Str → Bool
  | none => false
  | some s => !s.isEmpty

/-- Python `str.split(sep)` for a single-character separator: split on
every occurrence; the result never loses empty pieces
(`"a::b".split(":") == ["a", "", "b"]`, `"".split(":") == [""]`). -/
def pySplit (sep : Char) : Str → List Str
  | [] => [[]]
  | c :: rest =>
    if c = sep then [] :: pySplit sep rest
    else
      match pySplit sep rest with
      | [] => [[c]]
      | f :: r => (c :: f) :: r

/-- Insertion of one row into a row sequence already ordered by `le`. -/
def insertSorted {α : Type} (le : α → α → Bool) (x : α) : List α → List α
  | [] => [x]
  | y :: ys => if le x y then x :: y :: ys else y :: insertSorted le x ys

/-- The ordering a SQL `ORDER BY` applies to a row sequence: a sort of
the rows by the comparison `le` (deterministic and stable, ties keeping
their incoming order). -/
def sortWith {α : Type} (le : α → α → Bool) : List α → List α
  | [] => []
  | x :: xs => insertSorted le x (sortWith le xs)

/-- A value stored in a sortable column: SQL NULL, a numeric column, or
a text column. -/
inductive ColVal where
  | vNum (n : Nat)
  | vStr (s : Str)
  | vNull
deriving DecidableEq, Repr

/-- Lexicographic comparison of text column values. -/
def strLe : Str → Str → Bool
  | [], _ => true
  | _ :: _, [] => false
  | a :: as, b :: bs => if a < b then true else if b < a then false else strLe as bs

/-- Total comparison of column values (numbers, then text, then NULL;
NULL sorts last under ascending order, matching `NULLS LAST`). -/
def colValLe : ColVal → ColVal → Bool
  | .vNum m, .vNum n => decide (m ≤ n)
  | .vNum _, .vStr _ => true
  | .vNum _, .vNull => true
  | .vStr _, .vNum _ => false
  | .vStr s, .vStr t => strLe s t
  | .vStr _, .vNull => true
  | .vNull, .vNull => true
  | .vNull, .vNum _ => false
  | .vNull, .vStr _ => false

/-- The value of an optional (nullable) text column. -/
def optVal : Option Str → ColVal
  | none => .vNull
  | some s => .vStr s

/-- The per-entity data the generic list-query construction needs: the
designated searchable text fields (in the order of the `or_`
disjunction; `none` is SQL NULL), and the mapped-class attribute lookup
`getattr(Model, column)` restricted to the mapped columns (`none` means
the lookup raises `AttributeError`). -/
structure OrmEntity (α : Type) where
  searchFields : α → List (Option Str)
  attrs : Str → Option (α → ColVal)

/-- The uncaught storage-layer failure of the query builder: the
`AttributeError` raised by `getattr(Model, sort_column)` for a column
that is not an attribute of the mapped class. -/
inductive OrmError where
  | attributeError (column : Str)
deriving DecidableEq, Repr

/-- One record matches the search filter if at least one designated
searchable field matches `ILIKE '%term%'` (a NULL field never
matches). -/
def rowMatches {α : Type} (E : OrmEntity α) (pat : Str) (row : α) : Bool :=
  (E.searchFields row).any fun f =>
    match f with
    | none => false
    | some text => ilike text pat

/-- The row ordering requested by `order_by`: `desc(col)` when the parsed
direction is exactly `"desc"`, `asc(col)` for any other direction. -/
def sortRel {α : Type} (key : α → ColVal) (sort_order : Str) : α → α → Bool :=
  if sort_order = "desc".data then fun a b => colValLe (key b) (key a)
  else fun a b => colValLe (key a) (key b)

/-- The `query.filter(...)` stage: `if search:` wrap the term in
wildcards and keep the rows whose searchable-field disjunction
matches. -/
def ormFilter {α : Type} (E : OrmEntity α) (search : Option Str) (db : List α) : List α :=
  if truthy search then db.filter (rowMatches E (wrapWildcards (search.getD []))) else db

/-- The `query.order_by(...)` stage: `if sortby:` parse
`"<column>:<direction>"` by `sortby.split(':')`; an unpacking failure
(`ValueError`, i.e. not exactly two pieces) is caught and the sort
request silently ignored; `getattr` on an unknown column raises
`AttributeError`, which is not caught. -/
def ormSort {α : Type} (E : OrmEntity α) (sortby : Option Str) (q : List α) :
    Except OrmError (List α) :=
  if truthy sortby then
    match pySplit ':' (sortby.getD []) with
    | [sort_column, sort_order] =>
      match E.attrs sort_column with
      | none => .error (.attributeError sort_column)
      | some key => .ok (sortWith (sortRel key sort_order) q)
    | _ => .ok q
  else .ok q

/-- The `query.offset(skip).limit(limit).all()` stage. -/
def pageOf {α : Type} (skip limit : Nat) (l : List α) : List α :=
  (l.drop skip).take limit

/-- The generic list query of `data/crud.py` (the body shared by
`get_companies`, `get_vendors`, `get_sows` and `get_invoices`): filter,
then sort, then paginate. -/
def ormList {α : Type} (E : OrmEntity α) (db : List α) (skip limit : Nat)
    (sortby search : Option Str) : Except OrmError (List α) :=
  (ormSort E sortby (ormFilter E search db)).map (pageOf skip limit)

/-- The `ContractCompany` record (fields per `api/v1/schemas/company.py`;
the opaque `extra_metadata` map is embedded as opaque text). -/
structure ContractCompany where
  id : Nat
  company_name : Str
  address : Option Str
  contact_person : Option Str
  contact_email : Option Str
  extra_metadata : Option Str
deriving DecidableEq, Repr

/-- Searchable fields and mapped columns of `ContractCompany`
(`data/models.py` is not part of the excerpt; the column set is the
searchable-field table of the specification plus the identifier). -/
def companyEntity : OrmEntity ContractCompany :=
  ⟨fun c => [some c.company_name, c.address, c.contact_person, c.contact_email],
   fun col =>
    if col = "id".data then some fun c => .vNum c.id
    else if col = "company_name".data then some fun c => .vStr c.company_name
    else if col = "address".data then some fun c => optVal c.address
    else if col = "contact_person".data then some fun c => optVal c.contact_person
    else if col = "contact_email".data then some fun c => optVal c.contact_email
    else none⟩

/-- Modelled from the spec: the `Vendor` mapped class (`data/models.py`
is not in the excerpt); identifier plus the designated searchable text
fields of §3, the name being required. -/
structure Vendor where
  id : Nat
  name : Str
  address : Option Str
  contact_name : Option Str
  contact_email : Option Str
  contact_phone : Option Str
  contact_type : Option Str
deriving DecidableEq, Repr

/-- Modelled from the spec: searchable fields and mapped columns of
`Vendor`. -/
def vendorEntity : OrmEntity Vendor :=
  ⟨fun v => [some v.name, v.address, v.contact_name, v.contact_email,
             v.contact_phone, v.contact_type],
   fun col =>
    if col = "id".data then some fun v => .vNum v.id
    else if col = "name".data then some fun v => .vStr v.name
    else if col = "address".data then some fun v => optVal v.address
    else if col = "contact_name".data then some fun v => optVal v.contact_name
    else if col = "contact_email".data then some fun v => optVal v.contact_email
    else if col = "contact_phone".data then some fun v => optVal v.contact_phone
    else if col = "contact_type".data then some fun v => optVal v.contact_type
    else none⟩

/-- Modelled from the spec: the `Sow` mapped class (`data/models.py` is
not in the excerpt); identifier plus the designated searchable text
fields of §3 (the non-searchable typed fields play no part in any query
the module builds). -/
structure Sow where
  id : Nat
  sow_title : Str
  sow_document : Option Str
deriving DecidableEq, Repr

/-- Modelled from the spec: searchable fields and mapped columns of
`Sow`. -/
def sowEntity : OrmEntity Sow :=
  ⟨fun s => [some s.sow_title, s.sow_document],
   fun col =>
    if col = "id".data then some fun s => .vNum s.id
    else if col = "sow_title".data then some fun s => .vStr s.sow_title
    else if col = "sow_document".data then some fun s => optVal s.sow_document
    else none⟩

/-- Modelled from the spec: the `Invoice` record (`data/models.py` and
`app/models.py` are not in the excerpt); identifier plus the designated
searchable text fields of §3, the invoice number being required. -/
structure Invoice where
  id : Nat
  invoice_number : Str
  payment_status : Option Str
deriving DecidableEq, Repr

/-- Modelled from the spec: searchable fields and mapped columns of
`Invoice`. -/
def invoiceEntity : OrmEntity Invoice :=
  ⟨fun i => [some i.invoice_number, i.payment_status],
   fun col =>
    if col = "id".data then some fun i => .vNum i.id
    else if col = "invoice_number".data then some fun i => .vStr i.invoice_number
    else if col = "payment_status".data then some fun i => optVal i.payment_status
    else none⟩

/-- `get_company`: `db.query(ContractCompany).filter(id == company_id).first()`. -/
def get_company (db : List ContractCompany) (company_id : Nat) : Option ContractCompany :=
  db.find? fun c => c.id == company_id

/-- `get_companies` of `data/crud.py`. -/
def get_companies (db : List ContractCompany) (skip limit : Nat)
    (sortby search : Option Str) : Except OrmError (List ContractCompany) :=
  ormList companyEntity db skip limit sortby search

/-- `get_vendor` of `data/crud.py`. -/
def get_vendor (db : List Vendor) (vendor_id : Nat) : Option Vendor :=
  db.find? fun v => v.id == vendor_id

/-- `get_vendors` of `data/crud.py`. -/
def get_vendors (db : List Vendor) (skip limit : Nat)
    (sortby search : Option Str) : Except OrmError (List Vendor) :=
  ormList vendorEntity db skip limit sortby search

/-- `get_sow` of `data/crud.py`. -/
def get_sow (db : List Sow) (sow_id : Nat) : Option Sow :=
  db.find? fun s => s.id == sow_id

/-- `get_sows` of `data/crud.py`. -/
def get_sows (db : List Sow) (skip limit : Nat)
    (sortby search : Option Str) : Except OrmError (List Sow) :=
  ormList sowEntity db skip limit sortby search

/-- `get_invoice` of `data/crud.py`. -/
def get_invoice (db : List Invoice) (invoice_id : Nat) : Option Invoice :=
  db.find? fun i => i.id == invoice_id

/-- `get_invoices` of `data/crud.py`. -/
def get_invoices (db : List Invoice) (skip limit : Nat)
    (sortby search : Option Str) : Except OrmError (List Invoice) :=
  ormList invoiceEntity db skip limit sortby search

/-- Python `f"{n}"` rendering of an integer identifier. -/
def natToStr (n : Nat) : Str := (toString n).data

/-- Modelled from the spec: the `ListResponse` shape of `app/models.py`
(not in the excerpt): `{data, total, skip, limit}`. -/
structure ListResponse (α : Type) where
  data : List α
  total : Nat
  skip : Nat
  limit : Nat
deriving DecidableEq, Repr

/-- The error raised by `HTTPException(status_code=..., detail=...)`. -/
structure HttpError where
  status_code : Nat
  detail : Str
deriving DecidableEq, Repr

/-- Semantics of the parameterized statement
`SELECT * FROM invoices ORDER BY $1 LIMIT $2 OFFSET $3` with `$1` bound
as a VALUE: parameter binding substitutes values, never identifiers, so
the sort key is the constant text `orderby` on every row (PostgreSQL
`ORDER BY 'constant'`), then `OFFSET`/`LIMIT` are applied. -/
def fetchOrderByBoundValue (invoicesTable : List Invoice) (orderby : Str)
    (limit skip : Nat) : List Invoice :=
  ((sortWith (fun _ _ => strLe orderby orderby) invoicesTable).drop skip).take limit

/-- `list_invoices` of `app/routers/invoices.py`: default the ORDER BY
argument to `'id'`, overwrite it with `sortby` when truthy, run the
parameterized statement, and answer `{data, total, skip, limit}` with
`total` the length of the returned page (`len(invoices)`).  The
`search` parameter is accepted but never used by the handler. -/
def list_invoices (invoicesTable : List Invoice) (skip limit : Nat)
    (sortby search : Option Str) : ListResponse Invoice :=
  let orderby := if truthy sortby then sortby.getD [] else "id".data
  let rows := fetchOrderByBoundValue invoicesTable orderby limit skip
  ⟨rows, rows.length, skip, limit⟩

/-- `read_invoice` of `app/routers/invoices.py`: fetch the row with the
requested primary key (`WHERE id = $1`); when no row exists raise
`HTTPException(404, f'An invoice with an id of {invoice_id} was not found.')`. -/
def read_invoice (invoicesTable : List Invoice) (invoice_id : Nat) :
    Except HttpError Invoice :=
  match invoicesTable.find? (fun r => r.id == invoice_id) with
  | none => .error ⟨404, "An invoice with an id of ".data ++ natToStr invoice_id
      ++ " was not found.".data⟩
  | some row => .ok row

/-- The four relational tables the API reads. -/
structure Database where
  companies : List ContractCompany
  vendors : List Vendor
  sows : List Sow
  invoices : List Invoice
deriving DecidableEq, Repr

/-- A table identifier. -/
inductive TableId where
  | companiesTable
  | vendorsTable
  | sowsTable
  | invoicesTable
deriving DecidableEq, Repr

/-- A row of one of the tables. -/
inductive RowData where
  | companyRow (c : ContractCompany)
  | vendorRow (v : Vendor)
  | sowRow (s : Sow)
  | invoiceRow (i : Invoice)
deriving DecidableEq, Repr

/-- The kinds of SQL statement the database layer can execute: a read
(`SELECT`, whether built by the ORM query pipeline or run as a
parameterized statement over the pool), an `INSERT`, or a `DELETE`. -/
inductive SqlStmt where
  | selectStmt (table : TableId)
  | insertStmt (row : RowData)
  | deleteStmt (table : TableId) (rowId : Nat)
deriving DecidableEq, Repr

/-- The effect of executing one statement on the database state: a
`SELECT` leaves every table unchanged, an `INSERT` adds its row, a
`DELETE` removes the rows with the given identifier. -/
def execState : SqlStmt → Database → Database
  | .selectStmt _, db => db
  | .insertStmt (.companyRow c), db => ⟨c :: db.companies, db.vendors, db.sows, db.invoices⟩
  | .insertStmt (.vendorRow v), db => ⟨db.companies, v :: db.vendors, db.sows, db.invoices⟩
  | .insertStmt (.sowRow s), db => ⟨db.companies, db.vendors, s :: db.sows, db.invoices⟩
  | .insertStmt (.invoiceRow i), db => ⟨db.companies, db.vendors, db.sows, i :: db.invoices⟩
  | .deleteStmt .companiesTable rid, db =>
      ⟨db.companies.filter (fun c => c.id != rid), db.vendors, db.sows, db.invoices⟩
  | .deleteStmt .vendorsTable rid, db =>
      ⟨db.companies, db.vendors.filter (fun v => v.id != rid), db.sows, db.invoices⟩
  | .deleteStmt .sowsTable rid, db =>
      ⟨db.companies, db.vendors, db.sows.filter (fun s => s.id != rid), db.invoices⟩
  | .deleteStmt .invoicesTable rid, db =>
      ⟨db.companies, db.vendors, db.sows, db.invoices.filter (fun i => i.id != rid)⟩

/-- The single statement `get_company` executes. -/
def get_company_stmt : SqlStmt := .selectStmt .companiesTable

/-- The single statement `get_companies` executes. -/
def get_companies_stmt : SqlStmt := .selectStmt .companiesTable

/-- The single statement `get_vendor` executes. -/
def get_vendor_stmt : SqlStmt := .selectStmt .vendorsTable

/-- The single statement `get_vendors` executes. -/
def get_vendors_stmt : SqlStmt := .selectStmt .vendorsTable

/-- The single statement `get_sow` executes. -/
def get_sow_stmt : SqlStmt := .selectStmt .sowsTable

/-- The single statement `get_sows` executes. -/
def get_sows_stmt : SqlStmt := .selectStmt .sowsTable

/-- The single statement `get_invoice` executes. -/
def get_invoice_stmt : SqlStmt := .selectStmt .invoicesTable

/-- The single statement `get_invoices` executes. -/
def get_invoices_stmt : SqlStmt := .selectStmt .invoicesTable

/-- The single statement `list_invoices` executes (`conn.fetch` of a
`SELECT`). -/
def list_invoices_stmt : SqlStmt := .selectStmt .invoicesTable

/-- The single statement `read_invoice` executes (`conn.fetchrow` of a
`SELECT`). -/
def read_invoice_stmt : SqlStmt := .selectStmt .invoicesTable

/-- `get_company` with its state effect: the result together with the
database state after executing the operation's statement. -/
def get_company_run (db : Database) (company_id : Nat) :
    Option ContractCompany × Database :=
  (get_company db.companies company_id, execState get_company_stmt db)

/-- `get_companies` with its state effect. -/
def get_companies_run (db : Database) (skip limit : Nat) (sortby search : Option Str) :
    Except OrmError (List ContractCompany) × Database :=
  (get_companies db.companies skip limit sortby search, execState get_companies_stmt db)

/-- `get_vendor` with its state effect. -/
def get_vendor_run (db : Database) (vendor_id : Nat) : Option Vendor × Database :=
  (get_vendor db.vendors vendor_id, execState get_vendor_stmt db)

/-- `get_vendors` with its state effect. -/
def get_vendors_run (db : Database) (skip limit : Nat) (sortby search : Option Str) :
    Except OrmError (List Vendor) × Database :=
  (get_vendors db.vendors skip limit sortby search, execState get_vendors_stmt db)

/-- `get_sow` with its state effect. -/
def get_sow_run (db : Database) (sow_id : Nat) : Option Sow × Database :=
  (get_sow db.sows sow_id, execState get_sow_stmt db)

/-- `get_sows` with its state effect. -/
def get_sows_run (db : Database) (skip limit : Nat) (sortby search : Option Str) :
    Except OrmError (List Sow) × Database :=
  (get_sows db.sows skip limit sortby search, execState get_sows_stmt db)

/-- `get_invoice` with its state effect. -/
def get_invoice_run (db : Database) (invoice_id : Nat) : Option Invoice × Database :=
  (get_invoice db.invoices invoice_id, execState get_invoice_stmt db)

/-- `get_invoices` with its state effect. -/
def get_invoices_run (db : Database) (skip limit : Nat) (sortby search : Option Str) :
    Except OrmError (List Invoice) × Database :=
  (get_invoices db.invoices skip limit sortby search, execState get_invoices_stmt db)

/-- `list_invoices` with its state effect. -/
def list_invoices_run (db : Database) (skip limit : Nat) (sortby search : Option Str) :
    ListResponse Invoice × Database :=
  (list_invoices db.invoices skip limit sortby search, execState list_invoices_stmt db)

/-- `read_invoice` with its state effect. -/
def read_invoice_run (db : Database) (invoice_id : Nat) :
    Except HttpError Invoice × Database :=
  (read_invoice db.invoices invoice_id, execState read_invoice_stmt db)

/-- Modelled from the spec: the session-based collection endpoint for
companies (`app/routers/companies.py` is not in the excerpt): delegate
to the query builder and return `{data, total, skip, limit}` where
`total` is the count of the returned page. -/
def list_companies_endpoint (db : List ContractCompany) (skip limit : Nat)
    (sortby search : Option Str) : Except OrmError (ListResponse ContractCompany) :=
  (get_companies db skip limit sortby search).map fun rows =>
    ⟨rows, rows.length, skip, limit⟩

/-- Spec-words predicate (for comparison against the code's `ILIKE`
behaviour): the designated field contains the search term as a
case-insensitive substring; a NULL field contains nothing. -/
def fieldSubstrCI (term : Str) : Option Str → Bool
  | none => false
  | some t => decide (lowerStr term <:+: lowerStr t)

/-- Spec-words predicate: at least one designated searchable field of
the record contains the term as a case-insensitive substring. -/
def rowSubstrCI (fields : List (Option Str)) (term : Str) : Bool :=
  fields.any (fieldSubstrCI term)

/-- A search term free of the SQL pattern operators `%` and `_` (the
query builder performs no escaping, so only such terms denote literal
substring search). -/
def noWild (t : Str) : Prop := ∀ c ∈ t, c ≠ '%' ∧ c ≠ '_'

/-- Absence of pattern operators in a term is decidable. -/
instance (t : Str) : Decidable (noWild t) :=
  inferInstanceAs (Decidable (∀ c ∈ t, c ≠ '%' ∧ c ≠ '_'))

/-- Company 1 of the specification's concrete scenario (§8). -/
def companyAcme : ContractCompany := ⟨1, "Acme".data, none, none, none, none⟩

/-- Company 2 of the specification's concrete scenario (§8). -/
def companyAcmeCorp : ContractCompany := ⟨2, "Acme Corp".data, none, none, none, none⟩

/-- Company 3 of the specification's concrete scenario (§8). -/
def companyZenith : ContractCompany := ⟨3, "Zenith".data, none, none, none, none⟩

/-- The collection of the specification's concrete scenario (§8). -/
def acmeCollection : List ContractCompany := [companyAcme, companyAcmeCorp, companyZenith]

/-- A concrete invoice used to evaluate the theorems on an input. -/
def invoiceSeven : Invoice := ⟨7, "INV-007".data, some "Paid".data⟩

/-- A second concrete invoice. -/
def invoiceEight : Invoice := ⟨8, "INV-008".data, some "Pending".data⟩

/-- A concrete two-row invoices table. -/
def invoicesSample : List Invoice := [invoiceSeven, invoiceEight]

theorem insertSorted_perm {α : Type} (le : α → α → Bool) (x : α) (l : List α) :
    (insertSorted le x l).Perm (x :: l) := by
  induction l with
  | nil => exact .refl _
  | cons y ys ih =>
    by_cases h : le x y = true
    · simp [insertSorted, h]
    · simp only [insertSorted, if_neg h]
      exact (ih.cons y).trans (List.Perm.swap x y ys)

theorem sortWith_perm {α : Type} (le : α → α → Bool) (l : List α) :
    (sortWith le l).Perm l := by
  induction l with
  | nil => exact .refl _
  | cons x xs ih => exact (insertSorted_perm le x (sortWith le xs)).trans (ih.cons x)

theorem mem_insertSorted {α : Type} {le : α → α → Bool} {x a : α} {l : List α} :
    a ∈ insertSorted le x l ↔ a = x ∨ a ∈ l := by
  have h := (insertSorted_perm le x l).mem_iff (a := a)
  simpa using h

theorem insertSorted_pairwise {α : Type} {le : α → α → Bool}
    (hto : ∀ a b, le a b = true ∨ le b a = true)
    (htr : ∀ a b c, le a b = true → le b c = true → le a c = true)
    (x : α) {l : List α} (h : l.Pairwise fun a b => le a b = true) :
    (insertSorted le x l).Pairwise fun a b => le a b = true := by
  induction l with
  | nil => simp [insertSorted]
  | cons y ys ih =>
    rcases List.pairwise_cons.mp h with ⟨hy, hys⟩
    by_cases hxy : le x y = true
    · simp only [insertSorted, if_pos hxy]
      refine List.Pairwise.cons ?_ h
      intro z hz
      rcases List.mem_cons.mp hz with rfl | hz'
      · exact hxy
      · exact htr x y z hxy (hy z hz')
    · simp only [insertSorted, if_neg hxy]
      refine List.Pairwise.cons ?_ (ih hys)
      intro z hz
      rcases mem_insertSorted.mp hz with rfl | hz'
      · exact (hto z y).resolve_left hxy
      · exact hy z hz'

theorem sortWith_pairwise {α : Type} {le : α → α → Bool}
    (hto : ∀ a b, le a b = true ∨ le b a = true)
    (htr : ∀ a b c, le a b = true → le b c = true → le a c = true)
    (l : List α) :
    (sortWith le l).Pairwise fun a b => le a b = true := by
  induction l with
  | nil => simp [sortWith]
  | cons x xs ih => exact insertSorted_pairwise hto htr x ih

theorem sortWith_eq_of_true {α : Type} {le : α → α → Bool}
    (h : ∀ a b, le a b = true) (l : List α) : sortWith le l = l := by
  induction l with
  | nil => rfl
  | cons x xs ih =>
    simp only [sortWith, ih]
    cases xs with
    | nil => rfl
    | cons y ys => simp [insertSorted, h x y]

theorem strLe_refl (s : Str) : strLe s s = true := by
  induction s with
  | nil => rfl
  | cons a as ih => simp [strLe, ih, lt_irrefl]

theorem strLe_total (a : Str) : ∀ b, strLe a b = true ∨ strLe b a = true := by
  induction a with
  | nil => intro b; exact Or.inl rfl
  | cons x xs ih =>
    intro b
    cases b with
    | nil => exact Or.inr rfl
    | cons y ys =>
      rcases lt_trichotomy x y with h | h | h
      · left; simp [strLe, h]
      · subst h
        rcases ih ys with h2 | h2
        · left; simp [strLe, lt_irrefl, h2]
        · right; simp [strLe, lt_irrefl, h2]
      · right; simp [strLe, h]

theorem strLe_trans (a : Str) : ∀ b c, strLe a b = true → strLe b c = true → strLe a c = true := by
  induction a with
  | nil => intro b c _ _; rfl
  | cons x xs ih =>
    intro b c h1 h2
    cases b with
    | nil => simp [strLe] at h1
    | cons y ys =>
      cases c with
      | nil => simp [strLe] at h2
      | cons z zs =>
        by_cases hxy : x < y
        · by_cases hyz : y < z
          · simp [strLe, lt_trans hxy hyz]
          · by_cases hzy : z < y
            · simp [strLe, hyz, hzy] at h2
            · have hyzeq : y = z := ((lt_trichotomy y z).resolve_left hyz).resolve_right hzy
              subst hyzeq
              simp [strLe, hxy]
        · by_cases hyx : y < x
          · simp [strLe, hxy, hyx] at h1
          · have hxyeq : x = y := ((lt_trichotomy x y).resolve_left hxy).resolve_right hyx
            subst hxyeq
            simp only [strLe, if_neg hxy, if_neg hyx] at h1
            by_cases hyz : x < z
            · simp [strLe, hyz]
            · by_cases hzy : z < x
              · simp [strLe, hyz, hzy] at h2
              · have hxzeq : x = z := ((lt_trichotomy x z).resolve_left hyz).resolve_right hzy
                subst hxzeq
                simp only [strLe, if_neg hyz, if_neg hzy] at h2 ⊢
                exact ih ys zs h1 h2

theorem colValLe_total (a b : ColVal) : colValLe a b = true ∨ colValLe b a = true := by
  cases a <;> cases b <;> simp [colValLe] <;>
    first
      | exact Nat.le_total _ _
      | exact strLe_total _ _

theorem colValLe_trans (a b c : ColVal) :
    colValLe a b = true → colValLe b c = true → colValLe a c = true := by
  cases a <;> cases b <;> cases c <;> simp [colValLe] <;>
    first
      | omega
      | exact strLe_trans _ _ _

theorem sortRel_total {α : Type} (key : α → ColVal) (sort_order : Str) (a b : α) :
    sortRel key sort_order a b = true ∨ sortRel key sort_order b a = true := by
  unfold sortRel
  split
  · show colValLe (key b) (key a) = true ∨ colValLe (key a) (key b) = true
    exact (colValLe_total (key b) (key a))
  · show colValLe (key a) (key b) = true ∨ colValLe (key b) (key a) = true
    exact colValLe_total (key a) (key b)

theorem sortRel_trans {α : Type} (key : α → ColVal) (sort_order : Str) (a b c : α) :
    sortRel key sort_order a b = true → sortRel key sort_order b c = true →
    sortRel key sort_order a c = true := by
  unfold sortRel
  split
  · intro h1 h2; exact colValLe_trans (key c) (key b) (key a) h2 h1
  · intro h1 h2; exact colValLe_trans (key a) (key b) (key c) h1 h2

theorem ormFilter_sublist {α : Type} (E : OrmEntity α) (search : Option Str) (db : List α) :
    (ormFilter E search db).Sublist db := by
  unfold ormFilter
  split
  · exact List.filter_sublist db
  · exact List.Sublist.refl db

theorem ormSort_ok_perm {α : Type} {E : OrmEntity α} {sortby : Option Str} {q l : List α}
    (h : ormSort E sortby q = .ok l) : l.Perm q := by
  unfold ormSort at h
  split at h
  · split at h
    · split at h
      · cases h
      · cases h
        exact sortWith_perm _ q
    · cases h
      exact .refl q
  · cases h
    exact .refl q

theorem pairwise_pageOf_disjoint {α : Type} {R : α → α → Prop} {l : List α}
    (h : l.Pairwise R) (skip limit m : Nat) :
    ∀ a ∈ pageOf skip limit l, ∀ b ∈ pageOf (skip + limit) m l, R a b := by
  intro a ha b hb
  have hdrop : (l.drop skip).Pairwise R := List.Pairwise.sublist (List.drop_sublist skip l) h
  have hsplit :=
    List.pairwise_append.mp ((List.take_append_drop limit (l.drop skip)).symm ▸ hdrop)
  refine hsplit.2.2 a ha b ?_
  have hb' : b ∈ (l.drop (skip + limit)).take m := hb
  have := List.take_subset m (l.drop (skip + limit)) hb'
  rwa [← List.drop_drop] at this

theorem pageOf_length_le {α : Type} (skip limit : Nat) (l : List α) :
    (pageOf skip limit l).length ≤ limit :=
  List.length_take_le limit (l.drop skip)

theorem likeMatch_pct_nil (s : Str) : likeMatch ['%'] s = true := by
  simp only [likeMatch, if_pos rfl]
  exact List.any_eq_true.mpr ⟨[], (List.mem_tails [] s).mpr List.nil_suffix, rfl⟩

theorem likeMatch_lit_pct (t : Str) :
    ∀ s : Str, noWild t → (likeMatch (t ++ ['%']) s = true ↔ t <+: s) := by
  induction t with
  | nil =>
    intro s _
    rw [List.nil_append, likeMatch_pct_nil]
    simp [List.nil_prefix]
  | cons c cs ih =>
    intro s hw
    have hc := hw c (List.mem_cons_self c cs)
    have hcs : noWild cs := fun d hd => hw d (List.mem_cons_of_mem c hd)
    cases s with
    | nil =>
      rw [List.cons_append]
      simp [likeMatch, hc.1]
    | cons d s2 =>
      rw [List.cons_append]
      simp only [likeMatch, if_neg hc.1, if_neg hc.2]
      rw [Bool.and_eq_true, beq_iff_eq, ih s2 hcs, List.cons_prefix_cons]

theorem likeMatch_pct_iff (p s : Str) :
    likeMatch ('%' :: p) s = true ↔ ∃ u, u <:+ s ∧ likeMatch p u = true := by
  have h1 : likeMatch ('%' :: p) s = (s.tails).any (likeMatch p) := by
    simp [likeMatch]
  rw [h1, List.any_eq_true]
  constructor
  · rintro ⟨u, hu, hm⟩
    exact ⟨u, (List.mem_tails u s).mp hu, hm⟩
  · rintro ⟨u, hu, hm⟩
    exact ⟨u, (List.mem_tails u s).mpr hu, hm⟩

theorem ilike_wrapped_iff (term text : Str) (hw : noWild (lowerStr term)) :
    ilike text (wrapWildcards term) = true ↔ lowerStr term <:+: lowerStr text := by
  unfold ilike wrapWildcards
  have hpat : lowerStr ('%' :: (term ++ ['%'])) = '%' :: (lowerStr term ++ ['%']) := by
    simp [lowerStr]
  rw [hpat, likeMatch_pct_iff]
  constructor
  · rintro ⟨u, hu, hm⟩
    exact List.infix_iff_prefix_suffix.mpr ⟨u, (likeMatch_lit_pct _ u hw).mp hm, hu⟩
  · intro h
    rcases List.infix_iff_prefix_suffix.mp h with ⟨u, hpre, hsuf⟩
    exact ⟨u, hsuf, (likeMatch_lit_pct _ u hw).mpr hpre⟩

theorem toNat_ofNat_valid (n : Nat) (h : n.isValidChar) : (Char.ofNat n).toNat = n := by
  simp [Char.ofNat, h, Char.ofNatAux, Char.toNat]
  rfl

theorem toLower_ne_low {c w : Char} (hwv : w.toNat < 97 ∨ 122 < w.toNat) (hc : c ≠ w) :
    Char.toLower c ≠ w := by
  unfold Char.toLower
  by_cases h : c.toNat ≥ 65 ∧ c.toNat ≤ 90
  · rw [if_pos h]
    intro heq
    have hv : (c.toNat + 32).isValidChar := by
      constructor
      omega
    have hn : (Char.ofNat (c.toNat + 32)).toNat = c.toNat + 32 := toNat_ofNat_valid _ hv
    rw [heq] at hn
    omega
  · rw [if_neg h]
    exact hc

theorem noWild_lowerStr {t : Str} (h : noWild t) : noWild (lowerStr t) := by
  intro c hc
  rcases List.mem_map.mp hc with ⟨d, hd, rfl⟩
  have hdw := h d hd
  constructor
  · exact toLower_ne_low (by left; decide) hdw.1
  · exact toLower_ne_low (by left; decide) hdw.2

theorem rowMatches_eq_rowSubstrCI {α : Type} (E : OrmEntity α) {term : Str}
    (hw : noWild term) (r : α) :
    rowMatches E (wrapWildcards term) r = rowSubstrCI (E.searchFields r) term := by
  unfold rowMatches rowSubstrCI
  refine congrArg (E.searchFields r).any (funext fun f => ?_)
  cases f with
  | none => rfl
  | some text =>
    simp only [fieldSubstrCI]
    rw [Bool.eq_iff_iff, decide_eq_true_iff]
    exact ilike_wrapped_iff term text (noWild_lowerStr hw)

theorem ormList_search_filter {α : Type} (E : OrmEntity α) (db : List α)
    (skip limit : Nat) (term : Str) (hw : noWild term)
    (hnil : ∀ r, rowSubstrCI (E.searchFields r) [] = true) :
    ormList E db skip limit none (some term) =
      .ok (pageOf skip limit (db.filter fun r => rowSubstrCI (E.searchFields r) term)) := by
  unfold ormList ormSort ormFilter
  simp only [truthy, Bool.false_eq_true, if_false, Option.getD]
  cases term with
  | nil =>
    simp only [List.isEmpty_nil, Bool.not_true, Bool.false_eq_true, if_false, Except.map]
    rw [List.filter_eq_self.mpr fun a _ => hnil a]
  | cons c cs =>
    simp only [List.isEmpty_cons, Bool.not_false, if_true, Except.map]
    rw [List.filter_congr fun r _ => rowMatches_eq_rowSubstrCI E hw r]

theorem rowSubstrCI_nil_company (c : ContractCompany) :
    rowSubstrCI (companyEntity.searchFields c) [] = true := by
  simp [rowSubstrCI, companyEntity, fieldSubstrCI, lowerStr, List.nil_infix]

theorem rowSubstrCI_nil_vendor (v : Vendor) :
    rowSubstrCI (vendorEntity.searchFields v) [] = true := by
  simp [rowSubstrCI, vendorEntity, fieldSubstrCI, lowerStr, List.nil_infix]

theorem rowSubstrCI_nil_sow (s : Sow) :
    rowSubstrCI (sowEntity.searchFields s) [] = true := by
  simp [rowSubstrCI, sowEntity, fieldSubstrCI, lowerStr, List.nil_infix]

theorem rowSubstrCI_nil_invoice (i : Invoice) :
    rowSubstrCI (invoiceEntity.searchFields i) [] = true := by
  simp [rowSubstrCI, invoiceEntity, fieldSubstrCI, lowerStr, List.nil_infix]

theorem ormList_paging {α : Type} (E : OrmEntity α) (f : α → Nat)
    {db : List α} {skip limit : Nat} {sortby search : Option Str} {l1 l2 : List α}
    (hnd : db.Pairwise fun a b => f a ≠ f b)
    (h1 : ormList E db skip limit sortby search = .ok l1)
    (h2 : ormList E db (skip + limit) limit sortby search = .ok l2) :
    l1.length ≤ limit ∧ ∀ a ∈ l1, ∀ b ∈ l2, f a ≠ f b := by
  unfold ormList at h1 h2
  rcases hs : ormSort E sortby (ormFilter E search db) with e | L
  · rw [hs] at h1
    cases h1
  · rw [hs] at h1 h2
    simp only [Except.map, Except.ok.injEq] at h1 h2
    subst h1
    subst h2
    refine ⟨pageOf_length_le skip limit L, ?_⟩
    have hfil : (ormFilter E search db).Pairwise fun a b => f a ≠ f b :=
      List.Pairwise.sublist (ormFilter_sublist E search db) hnd
    have hL : L.Pairwise fun a b => f a ≠ f b :=
      ((ormSort_ok_perm hs).pairwise_iff fun h => h.symm).mpr hfil
    exact pairwise_pageOf_disjoint hL skip limit limit

theorem fetchOrderByBoundValue_eq (invoicesTable : List Invoice) (orderby : Str)
    (limit skip : Nat) :
    fetchOrderByBoundValue invoicesTable orderby limit skip =
      (invoicesTable.drop skip).take limit := by
  unfold fetchOrderByBoundValue
  rw [sortWith_eq_of_true fun a b => strLe_refl orderby]

theorem list_invoices_data (invoicesTable : List Invoice) (skip limit : Nat)
    (sortby search : Option Str) :
    (list_invoices invoicesTable skip limit sortby search).data = pageOf skip limit invoicesTable := by
  simp only [list_invoices, fetchOrderByBoundValue_eq, pageOf]

theorem truthy_some_of_ne_nil {s : Str} (h : s ≠ []) : truthy (some s) = true := by
  cases s with
  | nil => exact absurd rfl h
  | cons c cs => rfl

theorem ne_nil_of_pySplit_pair {s col dir : Str} (h : pySplit ':' s = [col, dir]) : s ≠ [] := by
  intro hnil
  subst hnil
  simp [pySplit] at h

theorem ormSort_some_pair {α : Type} (E : OrmEntity α) {s col dir : Str} (q : List α)
    (hsp : pySplit ':' s = [col, dir]) :
    ormSort E (some s) q =
      (match E.attrs col with
       | none => .error (.attributeError col)
       | some key => .ok (sortWith (sortRel key dir) q)) := by
  unfold ormSort
  rw [if_pos (truthy_some_of_ne_nil (ne_nil_of_pySplit_pair hsp))]
  simp only [Option.getD_some]
  rw [hsp]

theorem find_invoice_id_eq {invs : List Invoice} {invoice_id : Nat} {row : Invoice}
    (hf : invs.find? (fun x => x.id == invoice_id) = some row) : row.id = invoice_id := by
  have h := List.find?_some hf
  simpa using h

/-- Claim C4: a `sortby` string that does not split into exactly two
pieces on `':'` gives exactly the result of the call with no `sortby`
at all: the sort request is silently ignored (the `ValueError` of the
unpacking is caught), for every ORM list operation. -/
theorem c4_malformed_sortby_ignored :
    ∀ {α : Type} (E : OrmEntity α) (db : List α) (skip limit : Nat)
      (search : Option Str) (s : Str),
      (pySplit ':' s).length ≠ 2 →
      ormList E db skip limit (some s) search = ormList E db skip limit none search := by
  intro α E db skip limit search s hlen
  unfold ormList
  congr 1
  unfold ormSort
  by_cases hse : s = []
  · subst hse
    rfl
  · rw [if_pos (truthy_some_of_ne_nil hse), if_neg (by simp [truthy])]
    simp only [Option.getD_some]
    rcases hsp : pySplit ':' s with _ | ⟨a, _ | ⟨b, _ | ⟨c, rest⟩⟩⟩
    · rfl
    · rfl
    · exfalso
      apply hlen
      rw [hsp]
      rfl
    · rfl

/-- Claim C4 witness: `sortby="bogus"` on the concrete scenario
collection behaves as no `sortby` at all. -/
theorem c4_malformed_sortby_ignored_witness :
    ormList companyEntity acmeCollection 0 10 (some "bogus".data) none =
      ormList companyEntity acmeCollection 0 10 none none :=
  c4_malformed_sortby_ignored companyEntity acmeCollection 0 10 none "bogus".data (by decide)

/-- Claim C5: in `list_invoices` the sort key reaches the statement as a
bound value, not an identifier, so ordering by it has no effect: the
fetch returns the plain `OFFSET`/`LIMIT` window for every `orderby`
value, and the whole response is the same as with no `sortby`. -/
theorem c5_sortby_bound_value_no_effect :
    (∀ (invoicesTable : List Invoice) (orderby : Str) (limit skip : Nat),
        fetchOrderByBoundValue invoicesTable orderby limit skip =
          (invoicesTable.drop skip).take limit)
  ∧ (∀ (invoicesTable : List Invoice) (skip limit : Nat) (sortby search : Option Str),
        list_invoices invoicesTable skip limit sortby search =
          list_invoices invoicesTable skip limit none search) := by
  constructor
  · exact fetchOrderByBoundValue_eq
  · intro invoicesTable skip limit sortby search
    simp only [list_invoices, fetchOrderByBoundValue_eq]

/-- Claim C6: `read_invoice` answers the invoice whose `id` equals the
requested one when it exists, and otherwise fails with a 404 whose
detail message contains the requested id — never a generic error and
never a success. -/
theorem c6_read_invoice_by_id (invs : List Invoice) (invoice_id : Nat) :
    (∀ r, read_invoice invs invoice_id = .ok r → r.id = invoice_id ∧ r ∈ invs)
  ∧ ((∃ r ∈ invs, r.id = invoice_id) →
      ∃ r, read_invoice invs invoice_id = .ok r ∧ r.id = invoice_id ∧ r ∈ invs)
  ∧ ((∀ r ∈ invs, r.id ≠ invoice_id) →
      ∃ e, read_invoice invs invoice_id = .error e ∧ e.status_code = 404 ∧
        ∃ pre post, e.detail = pre ++ natToStr invoice_id ++ post) := by
  refine ⟨?_, ?_, ?_⟩
  · intro r hr
    unfold read_invoice at hr
    rcases hf : invs.find? (fun x => x.id == invoice_id) with _ | row
    · rw [hf] at hr
      cases hr
    · rw [hf] at hr
      cases hr
      exact ⟨find_invoice_id_eq hf, List.mem_of_find?_eq_some hf⟩
  · rintro ⟨r, hmem, hid⟩
    rcases hf : invs.find? (fun x => x.id == invoice_id) with _ | row
    · exfalso
      exact List.find?_eq_none.mp hf r hmem (by simp [hid])
    · refine ⟨row, ?_, find_invoice_id_eq hf, List.mem_of_find?_eq_some hf⟩
      unfold read_invoice
      rw [hf]
  · intro hall
    rcases hf : invs.find? (fun x => x.id == invoice_id) with _ | row
    · refine ⟨⟨404, "An invoice with an id of ".data ++ natToStr invoice_id
        ++ " was not found.".data⟩, ?_, rfl,
        "An invoice with an id of ".data, " was not found.".data, rfl⟩
      unfold read_invoice
      rw [hf]
    · exfalso
      exact hall row (List.mem_of_find?_eq_some hf) (find_invoice_id_eq hf)

/-- Claim C6 witness: the specification's concrete scenario, a lookup of
invoice 999 on a table without it yields the 404 with 999 in the
detail. -/
theorem c6_read_invoice_by_id_witness :
    ∃ e, read_invoice invoicesSample 999 = .error e ∧ e.status_code = 404 ∧
      ∃ pre post, e.detail = pre ++ natToStr 999 ++ post :=
  (c6_read_invoice_by_id invoicesSample 999).2.2 (by decide)

/-- Claim C7: a well-formed `sortby` whose column is not an attribute of
the entity makes the ORM list operation fail with the uncaught
attribute-lookup error (only the parse failure is caught), for every
ORM list operation. -/
theorem c7_unknown_sort_column_raises :
    ∀ {α : Type} (E : OrmEntity α) (db : List α) (skip limit : Nat)
      (s col dir : Str) (search : Option Str),
      pySplit ':' s = [col, dir] → E.attrs col = none →
      ormList E db skip limit (some s) search = .error (.attributeError col) := by
  intro α E db skip limit s col dir search hsp hattr
  unfold ormList
  rw [ormSort_some_pair E (ormFilter E search db) hsp, hattr]
  rfl

/-- Claim C7 witness: `sortby="bogus:asc"` on the concrete scenario
collection surfaces the attribute error for column `bogus`. -/
theorem c7_unknown_sort_column_raises_witness :
    ormList companyEntity acmeCollection 0 10 (some "bogus:asc".data) none =
      .error (.attributeError "bogus".data) :=
  c7_unknown_sort_column_raises companyEntity acmeCollection 0 10
    "bogus:asc".data "bogus".data "asc".data none (by decide) rfl

/-- Claim C8: every list response carries `total` equal to the length of
its own `data` page (not the collection count) and echoes `skip` and
`limit` unchanged — for the pool-based `list_invoices` and for the
session-based collection endpoint. -/
theorem c8_total_echoes_page :
    (∀ (invoicesTable : List Invoice) (skip limit : Nat) (sortby search : Option Str),
        (list_invoices invoicesTable skip limit sortby search).total =
          (list_invoices invoicesTable skip limit sortby search).data.length ∧
        (list_invoices invoicesTable skip limit sortby search).skip = skip ∧
        (list_invoices invoicesTable skip limit sortby search).limit = limit)
  ∧ (∀ (db : List ContractCompany) (skip limit : Nat) (sortby search : Option Str)
        (resp : ListResponse ContractCompany),
        list_companies_endpoint db skip limit sortby search = .ok resp →
        resp.total = resp.data.length ∧ resp.skip = skip ∧ resp.limit = limit) := by
  constructor
  · intro invoicesTable skip limit sortby search
    exact ⟨rfl, rfl, rfl⟩
  · intro db skip limit sortby search resp hok
    unfold list_companies_endpoint at hok
    rcases hg : get_companies db skip limit sortby search with e | rows
    · rw [hg] at hok
      cases hok
    · rw [hg] at hok
      cases hok
      exact ⟨rfl, rfl, rfl⟩

/-- Claim C8 witness: the endpoint response for the concrete scenario
collection reports its own page length as `total` and echoes the
inputs. -/
theorem c8_total_echoes_page_witness :
    (⟨acmeCollection, 3, 0, 10⟩ : ListResponse ContractCompany).total =
      (⟨acmeCollection, 3, 0, 10⟩ : ListResponse ContractCompany).data.length ∧
    (⟨acmeCollection, 3, 0, 10⟩ : ListResponse ContractCompany).skip = 0 ∧
    (⟨acmeCollection, 3, 0, 10⟩ : ListResponse ContractCompany).limit = 10 :=
  c8_total_echoes_page.2 acmeCollection 0 10 none none ⟨acmeCollection, 3, 0, 10⟩ (by decide)

/-- Claim C9: every operation of the CRUD module and of the invoice
router executes a single `SELECT` statement, and the database state
after it equals the state before it: all ten operations are
read-only. -/
theorem c9_operations_read_only :
    ∀ db : Database,
      (∀ company_id, (get_company_run db company_id).2 = db) ∧
      (∀ skip limit sortby search, (get_companies_run db skip limit sortby search).2 = db) ∧
      (∀ vendor_id, (get_vendor_run db vendor_id).2 = db) ∧
      (∀ skip limit sortby search, (get_vendors_run db skip limit sortby search).2 = db) ∧
      (∀ sow_id, (get_sow_run db sow_id).2 = db) ∧
      (∀ skip limit sortby search, (get_sows_run db skip limit sortby search).2 = db) ∧
      (∀ invoice_id, (get_invoice_run db invoice_id).2 = db) ∧
      (∀ skip limit sortby search, (get_invoices_run db skip limit sortby search).2 = db) ∧
      (∀ skip limit sortby search, (list_invoices_run db skip limit sortby search).2 = db) ∧
      (∀ invoice_id, (read_invoice_run db invoice_id).2 = db) :=
  fun db =>
    ⟨fun _ => rfl, fun _ _ _ _ => rfl, fun _ => rfl, fun _ _ _ _ => rfl,
     fun _ => rfl, fun _ _ _ _ => rfl, fun _ => rfl, fun _ _ _ _ => rfl,
     fun _ _ _ _ => rfl, fun _ => rfl⟩

/-- The state semantics is not vacuous: a write statement does change
the database state (no operation of the module issues one). -/
theorem execState_insert_changes (c : ContractCompany) (db : Database) :
    (execState (.insertStmt (.companyRow c)) db).companies = c :: db.companies := rfl

/-- Claim C10: the empty string is falsy, so passing `""` as `sortby` or
as `search` to an ORM list operation is the same call as passing
`None`. -/
theorem c10_empty_string_like_none :
    (∀ {α : Type} (E : OrmEntity α) (db : List α) (skip limit : Nat)
        (search : Option Str),
        ormList E db skip limit (some "".data) search = ormList E db skip limit none search)
  ∧ (∀ {α : Type} (E : OrmEntity α) (db : List α) (skip limit : Nat)
        (sortby : Option Str),
        ormList E db skip limit sortby (some "".data) = ormList E db skip limit sortby none) :=
  ⟨fun _ _ _ _ _ => rfl, fun _ _ _ _ _ => rfl⟩

/-- Claim C1: every list operation returns at most `limit` records, and
a second call with `skip' = skip + limit` over the same fixed
collection returns a page disjoint from the first (no record id appears
in both pages; the collection's ids are pairwise distinct, `id` being
the primary key). -/
theorem c1_pages_bounded_and_disjoint :
    (∀ (db : List ContractCompany) (skip limit : Nat) (sortby search : Option Str)
        (l1 l2 : List ContractCompany), 0 < limit →
        (db.Pairwise fun a b => a.id ≠ b.id) →
        get_companies db skip limit sortby search = .ok l1 →
        get_companies db (skip + limit) limit sortby search = .ok l2 →
        l1.length ≤ limit ∧ ∀ a ∈ l1, ∀ b ∈ l2, a.id ≠ b.id)
  ∧ (∀ (db : List Vendor) (skip limit : Nat) (sortby search : Option Str)
        (l1 l2 : List Vendor), 0 < limit →
        (db.Pairwise fun a b => a.id ≠ b.id) →
        get_vendors db skip limit sortby search = .ok l1 →
        get_vendors db (skip + limit) limit sortby search = .ok l2 →
        l1.length ≤ limit ∧ ∀ a ∈ l1, ∀ b ∈ l2, a.id ≠ b.id)
  ∧ (∀ (db : List Sow) (skip limit : Nat) (sortby search : Option Str)
        (l1 l2 : List Sow), 0 < limit →
        (db.Pairwise fun a b => a.id ≠ b.id) →
        get_sows db skip limit sortby search = .ok l1 →
        get_sows db (skip + limit) limit sortby search = .ok l2 →
        l1.length ≤ limit ∧ ∀ a ∈ l1, ∀ b ∈ l2, a.id ≠ b.id)
  ∧ (∀ (db : List Invoice) (skip limit : Nat) (sortby search : Option Str)
        (l1 l2 : List Invoice), 0 < limit →
        (db.Pairwise fun a b => a.id ≠ b.id) →
        get_invoices db skip limit sortby search = .ok l1 →
        get_invoices db (skip + limit) limit sortby search = .ok l2 →
        l1.length ≤ limit ∧ ∀ a ∈ l1, ∀ b ∈ l2, a.id ≠ b.id)
  ∧ (∀ (invoicesTable : List Invoice) (skip limit : Nat) (sortby search : Option Str),
        0 < limit →
        (invoicesTable.Pairwise fun a b => a.id ≠ b.id) →
        (list_invoices invoicesTable skip limit sortby search).data.length ≤ limit ∧
        ∀ a ∈ (list_invoices invoicesTable skip limit sortby search).data,
          ∀ b ∈ (list_invoices invoicesTable (skip + limit) limit sortby search).data,
            a.id ≠ b.id) := by
  refine ⟨?_, ?_, ?_, ?_, ?_⟩
  · intro db skip limit sortby search l1 l2 _ hnd h1 h2
    exact ormList_paging companyEntity (fun c => c.id) hnd h1 h2
  · intro db skip limit sortby search l1 l2 _ hnd h1 h2
    exact ormList_paging vendorEntity (fun v => v.id) hnd h1 h2
  · intro db skip limit sortby search l1 l2 _ hnd h1 h2
    exact ormList_paging sowEntity (fun s => s.id) hnd h1 h2
  · intro db skip limit sortby search l1 l2 _ hnd h1 h2
    exact ormList_paging invoiceEntity (fun i => i.id) hnd h1 h2
  · intro invoicesTable skip limit sortby search _ hnd
    rw [list_invoices_data, list_invoices_data]
    exact ⟨pageOf_length_le _ _ _, pairwise_pageOf_disjoint hnd skip limit limit⟩

/-- Claim C1 witness: on the concrete scenario collection with
`limit = 1`, page one is `[companyAcme]`, page two is
`[companyAcmeCorp]`, the page length is bounded and the ids are
disjoint. -/
theorem c1_pages_bounded_and_disjoint_witness :
    [companyAcme].length ≤ 1 ∧
      ∀ a ∈ [companyAcme], ∀ b ∈ [companyAcmeCorp], a.id ≠ b.id :=
  c1_pages_bounded_and_disjoint.1 acmeCollection 0 1 none none
    [companyAcme] [companyAcmeCorp] (by decide) (by decide) (by decide) (by decide)

/-- Claim C2 counterexample: the search term `"a_me"` contains the SQL
wildcard `_`, which the query builder does not escape.  The company
`Acme` is returned although none of its designated searchable fields
contains `"a_me"` as a case-insensitive substring, so the claim as
stated (returned records contain the term as a substring) is false. -/
theorem c2_counterexample_wildcard_term :
    get_companies [companyAcme] 0 10 none (some "a_me".data) = .ok [companyAcme] ∧
    rowSubstrCI (companyEntity.searchFields companyAcme) "a_me".data = false :=
  ⟨by decide, by decide⟩

/-- Claim C2 (amended to search terms free of the unescaped SQL pattern
operators `%` and `_`): the returned page is exactly the window of the
records having the term as case-insensitive substring of at least one
designated searchable field (the match being the wildcard-wrapped
`ILIKE` disjunction over those fields), soundness and completeness
within the page window; and the concrete scenario: `search="acme"`
returns exactly the companies with ids 1 and 2. -/
theorem c2_search_is_substring_filter :
    (∀ (db : List ContractCompany) (skip limit : Nat) (term : Str), noWild term →
        get_companies db skip limit none (some term) =
          .ok (pageOf skip limit
            (db.filter fun r => rowSubstrCI (companyEntity.searchFields r) term)))
  ∧ (∀ (db : List Vendor) (skip limit : Nat) (term : Str), noWild term →
        get_vendors db skip limit none (some term) =
          .ok (pageOf skip limit
            (db.filter fun r => rowSubstrCI (vendorEntity.searchFields r) term)))
  ∧ (∀ (db : List Sow) (skip limit : Nat) (term : Str), noWild term →
        get_sows db skip limit none (some term) =
          .ok (pageOf skip limit
            (db.filter fun r => rowSubstrCI (sowEntity.searchFields r) term)))
  ∧ (∀ (db : List Invoice) (skip limit : Nat) (term : Str), noWild term →
        get_invoices db skip limit none (some term) =
          .ok (pageOf skip limit
            (db.filter fun r => rowSubstrCI (invoiceEntity.searchFields r) term)))
  ∧ (get_companies acmeCollection 0 10 none (some "acme".data) =
        .ok [companyAcme, companyAcmeCorp] ∧
      [companyAcme, companyAcmeCorp].map ContractCompany.id = [1, 2]) := by
  refine ⟨?_, ?_, ?_, ?_, by decide, by decide⟩
  · intro db skip limit term hw
    exact ormList_search_filter companyEntity db skip limit term hw rowSubstrCI_nil_company
  · intro db skip limit term hw
    exact ormList_search_filter vendorEntity db skip limit term hw rowSubstrCI_nil_vendor
  · intro db skip limit term hw
    exact ormList_search_filter sowEntity db skip limit term hw rowSubstrCI_nil_sow
  · intro db skip limit term hw
    exact ormList_search_filter invoiceEntity db skip limit term hw rowSubstrCI_nil_invoice

/-- Claim C2 witness: on the concrete scenario collection, the search
`"acme"` (wildcard-free) answers exactly the window of the
substring-matching records. -/
theorem c2_search_is_substring_filter_witness :
    get_companies acmeCollection 0 10 none (some "acme".data) =
      .ok (pageOf 0 10
        (acmeCollection.filter fun r => rowSubstrCI (companyEntity.searchFields r) "acme".data)) :=
  c2_search_is_substring_filter.1 acmeCollection 0 10 "acme".data (by decide)

/-- Claim C3: for a well-formed `sortby` over a valid column, direction
exactly `"desc"` gives a sequence non-increasing on that column and any
other direction gives a non-decreasing one, for every ORM list
operation; concretely, `search="acme"` with
`sortby="company_name:desc"` returns `[2, 1]`. -/
theorem c3_sort_direction :
    (∀ {α : Type} (E : OrmEntity α) (db : List α) (skip limit : Nat)
        (s col dir : Str) (key : α → ColVal) (search : Option Str) (l : List α),
        pySplit ':' s = [col, dir] → E.attrs col = some key →
        ormList E db skip limit (some s) search = .ok l →
        (dir = "desc".data → l.Pairwise fun a b => colValLe (key b) (key a) = true) ∧
        (dir ≠ "desc".data → l.Pairwise fun a b => colValLe (key a) (key b) = true))
  ∧ get_companies acmeCollection 0 10 (some "company_name:desc".data) (some "acme".data) =
      .ok [companyAcmeCorp, companyAcme] := by
  constructor
  · intro α E db skip limit s col dir key search l hsp hattr hok
    unfold ormList at hok
    rw [ormSort_some_pair E (ormFilter E search db) hsp, hattr] at hok
    simp only [Except.map, Except.ok.injEq] at hok
    subst hok
    have hpw : (sortWith (sortRel key dir) (ormFilter E search db)).Pairwise
        fun a b => sortRel key dir a b = true :=
      sortWith_pairwise (sortRel_total key dir) (sortRel_trans key dir) _
    have hl : (pageOf skip limit (sortWith (sortRel key dir) (ormFilter E search db))).Pairwise
        fun a b => sortRel key dir a b = true :=
      List.Pairwise.sublist ((List.take_sublist _ _).trans (List.drop_sublist _ _)) hpw
    constructor
    · intro hdir
      exact hl.imp fun hab => by simpa [sortRel, hdir] using hab
    · intro hdir
      exact hl.imp fun hab => by simpa [sortRel, hdir] using hab
  · decide

/-- Claim C3 witness: the concrete scenario page `[2, 1]` is
non-increasing on the `company_name` column. -/
theorem c3_sort_direction_witness :
    [companyAcmeCorp, companyAcme].Pairwise
      (fun a b => colValLe (ColVal.vStr b.company_name) (ColVal.vStr a.company_name) = true) :=
  (c3_sort_direction.1 companyEntity acmeCollection 0 10 "company_name:desc".data
      "company_name".data "desc".data (fun c => .vStr c.company_name) (some "acme".data)
      [companyAcmeCorp, companyAcme] (by decide) rfl (by decide)).1 rfl

end CopilotApi
